import Mathlib

/-!
Verification development for the ATAC-seq pipeline driver (`atacseq.py`).

The development shallowly embeds the parts of the program that carry real
logic: the coordinate-shift transform `shift_reads` (with its helper
`within_genome_boundry`), the steric-hindrance filter over alignment
records, the step-gated stage runner of `run_pipeline`, the staging-delete
bookkeeping, and the MarkDuplicates metrics scraping.  Python strings are
modelled at the character level so that every definition evaluates inside
the kernel; Python exceptions (`KeyError`, `IndexError`, `ValueError`) are
modelled with `Except`.
-/

/-- Python exceptions that can escape the embedded fragments of the code. -/
inductive PyError where
  | keyError (key : String)
  | indexError
  | valueError
deriving DecidableEq, Repr

deriving instance DecidableEq for Except

/-- Module-level constant `MINUS_STRAND_SHIFT = -5`. -/
def MINUS_STRAND_SHIFT : Int := -5

/-- Module-level constant `PLUS_STRAND_SHIFT = 4`. -/
def PLUS_STRAND_SHIFT : Int := 4

/-- Module-level constant `STERIC_HINDRANCE_CUTOFF = 38`. -/
def STERIC_HINDRANCE_CUTOFF : Int := 38

/-- Characters removed by Python `str.strip()` (whitespace). -/
def py_is_space (c : Char) : Bool :=
  c = ' ' ∨ c = '\t' ∨ c = '\n' ∨ c = '\x0d' ∨ c = '\x0b' ∨ c = '\x0c'

/-- Python `str.strip()` on a character list: drop whitespace at both ends. -/
def py_strip_chars (s : List Char) : List Char :=
  ((s.dropWhile py_is_space).reverse.dropWhile py_is_space).reverse

/-- Python `line.strip()` at the `String` level. -/
def py_strip (line : String) : String :=
  String.mk (py_strip_chars line.toList)

/-- Helper for Python `str.split('\t')`: split on every tab, keeping empty
fields, accumulating the current field in reverse. -/
def split_tab_aux (cur : List Char) : List Char → List (List Char)
  | [] => [cur.reverse]
  | c :: cs =>
    if c = '\t' then cur.reverse :: split_tab_aux [] cs
    else split_tab_aux (c :: cur) cs

/-- Python `line.strip().split('\t')`: the `record` list of `shift_reads`. -/
def strip_split_tab (line : String) : List String :=
  (split_tab_aux [] (py_strip_chars line.toList)).map String.mk

/-- Python `'\t'.join(fields)`. -/
def join_tab : List String → String
  | [] => ""
  | [s] => s
  | s :: rest => s ++ "\t" ++ join_tab rest

/-- Python `record[i]`: raises `IndexError` when the index is out of range. -/
def pyGetItem (record : List String) (i : Nat) : Except PyError String :=
  match record.get? i with
  | some s => .ok s
  | none => .error .indexError

/-- Python 2 `int(s)`: strip whitespace, accept an optional sign followed by
one or more digits, otherwise raise `ValueError`. -/
def pyInt (s : String) : Except PyError Int :=
  let t := py_strip_chars s.toList
  let digits := match t with
    | '-' :: rest => rest
    | '+' :: rest => rest
    | _ => t
  let neg : Bool := match t with
    | '-' :: _ => true
    | _ => false
  if digits ≠ [] ∧ digits.all Char.isDigit then
    let n : Nat := digits.foldl (fun acc c => 10 * acc + (c.toNat - 48)) 0
    .ok (if neg then -(n : Int) else (n : Int))
  else .error .valueError

/-- Lookup in a Python dict represented as the list of its assignments in
order; a later assignment to the same key overwrites an earlier one. -/
def pyLookup (d : List (String × Int)) (k : String) : Option Int :=
  ((d.filter (fun p => p.1 = k)).getLast?).map (fun p => p.2)

/-- Inner function `within_genome_boundry(chrom, check_pos, genome_sizes_dict)`
of `shift_reads`: positions below 1 are rejected before the dict is
consulted; a position above the chromosome length is rejected; looking up a
chromosome absent from the dict raises `KeyError`. -/
def within_genome_boundry (chrom : String) (check_pos : Int)
    (genome_sizes_dict : List (String × Int)) : Except PyError Bool :=
  if check_pos < 1 then .ok false
  else
    match pyLookup genome_sizes_dict chrom with
    | none => .error (.keyError chrom)
    | some size => if check_pos > size then .ok false else .ok true

/-- Parsing step of the `shift_reads` loop body:
`chrom, start, end, strand = record[0], int(record[1]), int(record[2]), record[5]`
with Python's left-to-right evaluation order. -/
def parse_record (line : String) : Except PyError (String × Int × Int × String) :=
  let record := strip_split_tab line
  match pyGetItem record 0 with
  | .error e => .error e
  | .ok chrom =>
    match pyGetItem record 1 with
    | .error e => .error e
    | .ok s1 =>
      match pyInt s1 with
      | .error e => .error e
      | .ok start =>
        match pyGetItem record 2 with
        | .error e => .error e
        | .ok s2 =>
          match pyInt s2 with
          | .error e => .error e
          | .ok stop =>
            match pyGetItem record 5 with
            | .error e => .error e
            | .ok strand => .ok (chrom, start, stop, strand)

/-- Strand dispatch of `shift_reads`: `+` adds `plus_strand_shift` to both
coordinates, `-` adds `minus_strand_shift`, any other strand value is
malformed (`none`). -/
def shifted_coords (strand : String) (start stop minus_strand_shift plus_strand_shift : Int) :
    Option (Int × Int) :=
  if strand = "+" then some (start + plus_strand_shift, stop + plus_strand_shift)
  else if strand = "-" then some (start + minus_strand_shift, stop + minus_strand_shift)
  else none

/-- Loop body of `shift_reads` for one input line.  The result is the pair of
log lines appended to the shift log and the output line written to the
output BED file (if any); a Python exception is propagated as `.error`. -/
def shift_line (genome_sizes : List (String × Int))
    (minus_strand_shift plus_strand_shift : Int) (line : String) :
    Except PyError (List String × Option String) :=
  match parse_record line with
  | .error e => .error e
  | .ok (chrom, start, stop, strand) =>
    match shifted_coords strand start stop minus_strand_shift plus_strand_shift with
    | none => .ok (["Mal-formatted line in file, skipping:", py_strip line], none)
    | some (new_start, new_end) =>
      match within_genome_boundry chrom new_start genome_sizes with
      | .error e => .error e
      | .ok false => .ok (["Shift start site beyond chromosome boundry:", py_strip line], none)
      | .ok true =>
        match within_genome_boundry chrom new_end genome_sizes with
        | .error e => .error e
        | .ok false => .ok (["Shift end site beyond chromosome boundry:", py_strip line], none)
        | .ok true =>
          .ok ([], some (join_tab ([chrom, toString new_start, toString new_end] ++
            (strip_split_tab line).drop 3)))

/-- Whole `shift_reads` scan over the input BED lines: returns the list of
output lines and the list of log lines; the first uncaught Python exception
aborts the run. -/
def shift_reads (input_bed : List String) (genome_sizes : List (String × Int))
    (minus_strand_shift plus_strand_shift : Int) :
    Except PyError (List String × List String) :=
  match input_bed with
  | [] => .ok ([], [])
  | line :: rest =>
    match shift_line genome_sizes minus_strand_shift plus_strand_shift line with
    | .error e => .error e
    | .ok (log_lines, out_line) =>
      match shift_reads rest genome_sizes minus_strand_shift plus_strand_shift with
      | .error e => .error e
      | .ok (outs, logs) => .ok (out_line.toList ++ outs, log_lines ++ logs)

/-- Parsing of the genome sizes file:
`chrom, size = line.strip().split('\t'); genome_sizes[chrom] = int(size)`. -/
def parse_genome_sizes : List String → Except PyError (List (String × Int))
  | [] => .ok []
  | line :: rest =>
    match strip_split_tab line with
    | [chrom, size] =>
      match pyInt size with
      | .error e => .error e
      | .ok n =>
        match parse_genome_sizes rest with
        | .error e => .error e
        | .ok d => .ok ((chrom, n) :: d)
    | _ => .error .valueError

/-- Steric-hindrance filter of stage 4: keep an alignment record iff
`abs(int(read.template_length)) >= STERIC_HINDRANCE_CUTOFF`, writing
survivors in encounter order, never modifying a record. -/
def steric_filter {α : Type} (template_length : α → Int) (reads : List α) : List α :=
  reads.filter (fun read => STERIC_HINDRANCE_CUTOFF ≤ |template_length read|)

/-- Stage numbers of `run_pipeline` in source order: the six guarded blocks
`if step <= 1` through `if step <= 6`. -/
def stage_numbers : List Int := [1, 2, 3, 4, 5, 6]

/-- Stages executed for a given starting step: stage `n` runs iff
`step <= n`, in source (ascending) order. -/
def stages_run (step : Int) : List Int :=
  stage_numbers.filter (fun n => step ≤ n)

/-- Stage 1 output name `lib_prefix + '_{}_read1.trimmed.fastq.gz'.format(i)`. -/
def trimmed_read1_filename (lib : String) (i : Nat) : String :=
  lib ++ "_" ++ toString i ++ "_read1.trimmed.fastq.gz"

/-- Stage 1 output name `lib_prefix + '_{}_read2.trimmed.fastq.gz'.format(i)`. -/
def trimmed_read2_filename (lib : String) (i : Nat) : String :=
  lib ++ "_" ++ toString i ++ "_read2.trimmed.fastq.gz"

/-- Stage 3 output name `'{}.{}.bam'.format(lib_prefix, i)`. -/
def bwa_bam_output (lib : String) (i : Nat) : String :=
  lib ++ "." ++ toString i ++ ".bam"

/-- Stage 4 file name `'{}.sortmerged.bam'.format(lib_prefix)`. -/
def sortmerged_bam (lib : String) : String := lib ++ ".sortmerged.bam"

/-- Stage 4 file name `'{}.steric.bam'.format(lib_prefix)`. -/
def steric_filter_bam (lib : String) : String := lib ++ ".steric.bam"

/-- Stage 4 file name `'{}.duprm.bam'.format(lib_prefix)`. -/
def duprm_bam (lib : String) : String := lib ++ ".duprm.bam"

/-- Stage 4 file name `'{}.unique.bam'.format(lib_prefix)`. -/
def unique_bam (lib : String) : String := lib ++ ".unique.bam"

/-- Stage 4 file name `'{}.unmappedrm.bam'.format(lib_prefix)`. -/
def unmappedrm_bam (lib : String) : String := lib ++ ".unmappedrm.bam"

/-- Stage 4 file name `'{}.chrmrm.bam'.format(lib_prefix)`. -/
def chrmrm_bam (lib : String) : String := lib ++ ".chrmrm.bam"

/-- Stage 5 file name `'{}.processed.bam'.format(lib_prefix)`. -/
def processed_bam (lib : String) : String := lib ++ ".processed.bam"

/-- Stage 5 file name `'{}.unshifted.bed'.format(lib_prefix)`. -/
def unshifted_bed (lib : String) : String := lib ++ ".unshifted.bed"

/-- Stage 5 file name `'{}.processed.bed'.format(lib_prefix)`. -/
def processed_bed (lib : String) : String := lib ++ ".processed.bed"

/-- Stage 6 tag directory name `'{}_tagdir'.format(lib_prefix)`. -/
def homer_tagdir (lib : String) : String := lib ++ "_tagdir"

/-- Stage 6 file name `'{}.unsorted.peaks.bed'.format(lib_prefix)`. -/
def unsorted_peaks (lib : String) : String := lib ++ ".unsorted.peaks.bed"

/-- Stage 6 file name `'{}.sorted.peaks.bed'.format(lib_prefix)`. -/
def sorted_peaks (lib : String) : String := lib ++ ".sorted.peaks.bed"

/-- Stage 6 file name `'{}.peaks.bed'.format(lib_prefix)`. -/
def merged_peaks (lib : String) : String := lib ++ ".peaks.bed"

/-- Files written by stage 1 (trimmed read pairs), one pair per input
read pair. -/
def stage1_writes (lib : String) (num_pairs : Nat) : List String :=
  (List.range num_pairs).flatMap
    (fun i => [trimmed_read1_filename lib i, trimmed_read2_filename lib i])

/-- Read-pair list after stage 1: stage 1 (when executed) replaces each pair
with the trimmed output paths (`read_pairs[i] = ':'.join([...])`). -/
def reads_after_stage1 (step : Int) (lib : String)
    (read_pairs : List (String × String)) : List (String × String) :=
  if step ≤ 1 then
    (List.range read_pairs.length).map
      (fun i => (trimmed_read1_filename lib i, trimmed_read2_filename lib i))
  else read_pairs

/-- Files written by stage 2: one `.sai` alignment-index file per read. -/
def stage2_writes (pairs : List (String × String)) : List String :=
  pairs.flatMap (fun p => [p.1 ++ ".sai", p.2 ++ ".sai"])

/-- Files written by stage 3: one paired-end BAM per read pair. -/
def stage3_writes (lib : String) (num_pairs : Nat) : List String :=
  (List.range num_pairs).map (bwa_bam_output lib)

/-- Files written by stage 4: per-pair flagstat reports plus the chain of
intermediate containers ending at the chrM-removed BAM. -/
def stage4_writes (lib : String) (num_pairs : Nat) : List String :=
  ((List.range num_pairs).map (fun i => bwa_bam_output lib i ++ ".flagstat")) ++
  [sortmerged_bam lib, sortmerged_bam lib ++ ".bai", steric_filter_bam lib,
   duprm_bam lib, unique_bam lib, unmappedrm_bam lib,
   unmappedrm_bam lib ++ ".bai", chrmrm_bam lib]

/-- File read by stage 5 as its starting point: the chrM-removed BAM. -/
def stage5_reads (lib : String) : List String := [chrmrm_bam lib]

/-- Files written by stage 5: blacklist-filtered BAM (and index), the
unshifted BED, and the shifted (processed) BED. -/
def stage5_writes (lib : String) : List String :=
  [processed_bam lib, processed_bam lib ++ ".bai", unshifted_bed lib, processed_bed lib]

/-- Files written by stage 6: tag directory, unsorted, sorted and merged
peak files. -/
def stage6_writes (lib : String) : List String :=
  [homer_tagdir lib, unsorted_peaks lib, sorted_peaks lib, merged_peaks lib]

/-- Output paths written by a run of `run_pipeline` with the given starting
step: each stage's writes happen exactly when its `if step <= n` guard
holds. -/
def pipeline_writes (step : Int) (lib : String)
    (read_pairs : List (String × String)) : List String :=
  (if step ≤ 1 then stage1_writes lib read_pairs.length else []) ++
  (if step ≤ 2 then stage2_writes (reads_after_stage1 step lib read_pairs) else []) ++
  (if step ≤ 3 then stage3_writes lib read_pairs.length else []) ++
  (if step ≤ 4 then stage4_writes lib read_pairs.length else []) ++
  (if step ≤ 5 then stage5_writes lib else []) ++
  (if step ≤ 6 then stage6_writes lib else [])

/-- Staging-delete entries appended by stage 4 (source lines 379-388), in
source order; the chrM-removed BAM is the final entry. -/
def stage4_staging (lib : String) : List String :=
  [sortmerged_bam lib, sortmerged_bam lib ++ ".bai", steric_filter_bam lib,
   unique_bam lib, duprm_bam lib, unmappedrm_bam lib,
   unmappedrm_bam lib ++ ".bai", chrmrm_bam lib]

/-- Staging-delete list as it stands at the end of stage 4: the initial
`[tmp_dir]`, then the guarded appends of stages 1, 2 and 4. -/
def staging_delete_after_stage4 (step : Int) (tmp_dir lib : String)
    (read_pairs : List (String × String)) : List String :=
  [tmp_dir] ++
  (if step ≤ 1 then stage1_writes lib read_pairs.length else []) ++
  (if step ≤ 2 then stage2_writes (reads_after_stage1 step lib read_pairs) else []) ++
  (if step ≤ 4 then stage4_staging lib else [])

/-- Staging-delete list at the end of the run, when the deletions are
actually performed: stage 5 adds the unshifted BED and stage 6 the
unsorted and sorted peak files. -/
def staging_delete_final (step : Int) (tmp_dir lib : String)
    (read_pairs : List (String × String)) : List String :=
  staging_delete_after_stage4 step tmp_dir lib read_pairs ++
  (if step ≤ 5 then [unshifted_bed lib] else []) ++
  (if step ≤ 6 then [unsorted_peaks lib, sorted_peaks lib] else [])

/-- Placeholder recorded when the MarkDuplicates metrics scrape fails. -/
def COULD_NOT_OPEN_MARKDUP : String := "Could not open MarkDuplicates metrics"

/-- Python `re.match(r'\d+', s) is not None`: the string starts with at
least one digit. -/
def re_match_digits (s : String) : Bool :=
  match s.toList with
  | [] => false
  | c :: _ => c.isDigit

/-- One iteration of the MarkDuplicates scraping loop: skip comment lines
(first character `#`, raising `IndexError` on an empty line), split the
stripped line on tabs, and overwrite the accumulator with field 7 when the
row has exactly 9 fields and field 7 starts with a digit. -/
def scrape_percent_duplicates_line (acc : String) (line : String) :
    Except PyError String :=
  match line.toList with
  | [] => .error .indexError
  | c :: _ =>
    if c = '#' then .ok acc
    else
      let record := strip_split_tab line
      if record.length = 9 then
        if re_match_digits (record.getD 7 "") then .ok (record.getD 7 "")
        else .ok acc
      else .ok acc

/-- Whole MarkDuplicates scraping loop over the metrics lines, threading
the `qc_data['percent_duplicate_reads']` accumulator. -/
def scrape_percent_duplicates_lines : List String → String → Except PyError String
  | [], acc => .ok acc
  | line :: rest, acc =>
    match scrape_percent_duplicates_line acc line with
    | .error e => .error e
    | .ok acc2 => scrape_percent_duplicates_lines rest acc2

/-- Recorded `percent_duplicate_reads` value: `none` models a metrics file
that cannot be opened; the surrounding `try/except` converts any exception
into the placeholder string.  The accumulator starts at the initial
`qc_data` value `'0'`. -/
def percent_duplicate_reads (metrics_file : Option (List String)) : String :=
  match metrics_file with
  | none => COULD_NOT_OPEN_MARKDUP
  | some lines =>
    match scrape_percent_duplicates_lines lines "0" with
    | .ok v => v
    | .error _ => COULD_NOT_OPEN_MARKDUP

/-- Value contributed by one metrics row: the row's field 7 when the row is
a non-comment row with exactly 9 fields whose field 7 starts with a digit,
otherwise nothing. -/
def row_scrape_value (line : String) : Option String :=
  match line.toList with
  | [] => none
  | c :: _ =>
    if c = '#' then none
    else
      let record := strip_split_tab line
      if record.length = 9 then
        if re_match_digits (record.getD 7 "") then some (record.getD 7 "")
        else none
      else none

/-- Helper: a successful `record[i]` access implies `i < record.length`. -/
theorem pyGetItem_ok_length (record : List String) (i : Nat) (s : String)
    (h : pyGetItem record i = .ok s) : i < record.length := by
  by_contra hlt
  have hn : record.get? i = none := List.get?_eq_none.mpr (by omega)
  unfold pyGetItem at h
  rw [hn] at h
  exact Except.noConfusion h

/-- C1: with `plus_strand_shift = 4` and `minus_strand_shift = -5`, a record
with strand `+` gets new coordinates `(start+4, end+4)`, a record with
strand `-` gets `(start-5, end-5)`, and a record with any other strand
value is written to the log and produces no output line. -/
theorem C1_shift_strand_dispatch (genome_sizes : List (String × Int))
    (line chrom : String) (start stop : Int) (strand : String)
    (hp : parse_record line = .ok (chrom, start, stop, strand)) :
    (strand = "+" →
      shifted_coords strand start stop MINUS_STRAND_SHIFT PLUS_STRAND_SHIFT =
        some (start + 4, stop + 4)) ∧
    (strand = "-" →
      shifted_coords strand start stop MINUS_STRAND_SHIFT PLUS_STRAND_SHIFT =
        some (start - 5, stop - 5)) ∧
    (strand ≠ "+" → strand ≠ "-" →
      shift_line genome_sizes MINUS_STRAND_SHIFT PLUS_STRAND_SHIFT line =
        .ok (["Mal-formatted line in file, skipping:", py_strip line], none)) := by
  refine ⟨?_, ?_, ?_⟩
  · intro h
    subst h
    simp [shifted_coords, PLUS_STRAND_SHIFT]
  · intro h
    subst h
    simp [shifted_coords, MINUS_STRAND_SHIFT]
    omega
  · intro h1 h2
    have hc : shifted_coords strand start stop MINUS_STRAND_SHIFT PLUS_STRAND_SHIFT = none := by
      simp [shifted_coords, h1, h2]
    simp [shift_line, hp, hc]

/-- Witness for C1 at the concrete record `chr1 10 20 name 0 *`: the strand
`*` is neither `+` nor `-`, so the record lands in the log and is absent
from the output. -/
theorem C1_witness :
    parse_record "chr1\t10\t20\tname\t0\t*" = .ok ("chr1", 10, 20, "*") ∧
    shift_line [("chr1", 100)] MINUS_STRAND_SHIFT PLUS_STRAND_SHIFT "chr1\t10\t20\tname\t0\t*" =
      .ok (["Mal-formatted line in file, skipping:", "chr1\t10\t20\tname\t0\t*"], none) := by
  refine ⟨by decide, ?_⟩
  have h := (C1_shift_strand_dispatch [("chr1", 100)] "chr1\t10\t20\tname\t0\t*" "chr1" 10 20 "*"
    (by decide)).2.2 (by decide) (by decide)
  rwa [show py_strip "chr1\t10\t20\tname\t0\t*" = "chr1\t10\t20\tname\t0\t*" from by decide] at h

/-- C3 counterexample: the record `chr1 10 20 name 0 -` shifted by `-5` is
emitted as `chr1 5 15 name 0 -` — the strand field is part of the
passthrough `record[3:]` and is preserved — so the emitted line is not the
claimed `chr1 5 15 name 0`. -/
theorem C3_counterexample :
    shift_line [("chr1", 100)] MINUS_STRAND_SHIFT PLUS_STRAND_SHIFT "chr1\t10\t20\tname\t0\t-" =
      .ok ([], some "chr1\t5\t15\tname\t0\t-") ∧
    ("chr1\t5\t15\tname\t0\t-" : String) ≠ "chr1\t5\t15\tname\t0" := by decide

/-- C3 (amended): the record `chr1 10 20 name 0 -` shifted by `-5` yields
coordinates `(5, 15)`, both within `[1, 100]`, and is emitted exactly as
the line `chr1 5 15 name 0 -`, all passthrough fields (including the
strand) preserved in original order. -/
theorem C3_shift_minus_example :
    shifted_coords "-" 10 20 MINUS_STRAND_SHIFT PLUS_STRAND_SHIFT = some (5, 15) ∧
    shift_line [("chr1", 100)] MINUS_STRAND_SHIFT PLUS_STRAND_SHIFT "chr1\t10\t20\tname\t0\t-" =
      .ok ([], some "chr1\t5\t15\tname\t0\t-") := by decide

/-- C4: the steric-hindrance filter keeps a record iff
`abs(fragment_length) >= 38`, preserves relative order and never rewrites a
record (the output is a sublist of the input), and on fragment lengths
`[10, 38, -38, 37, -50]` keeps exactly `38, -38, -50` in that order. -/
theorem C4_steric_filter_spec :
    (∀ (α : Type) (template_length : α → Int) (reads : List α) (read : α),
      read ∈ steric_filter template_length reads ↔
        read ∈ reads ∧ 38 ≤ |template_length read|) ∧
    (∀ (α : Type) (template_length : α → Int) (reads : List α),
      (steric_filter template_length reads).Sublist reads) ∧
    steric_filter id [(10 : Int), 38, -38, 37, -50] = [38, -38, -50] := by
  refine ⟨?_, ?_, by decide⟩
  · intro α t l r
    simp [steric_filter, List.mem_filter, STERIC_HINDRANCE_CUTOFF]
  · intro α t l
    exact List.filter_sublist l

/-- Witness for C4: the record with fragment length `-38` is kept because
`38 ≤ |-38|`. -/
theorem C4_witness :
    (-38 : Int) ∈ steric_filter id [(10 : Int), 38, -38, 37, -50] :=
  (C4_steric_filter_spec.1 Int id [10, 38, -38, 37, -50] (-38)).mpr (by decide)

/-- C8: the coordinate shifter is a deterministic function of the input
lines and the genome-size table — two runs on equal inputs produce equal
(byte-identical) outputs. -/
theorem C8_shift_reads_deterministic (input1 input2 : List String)
    (gs1 gs2 : List (String × Int)) (h1 : input1 = input2) (h2 : gs1 = gs2) :
    shift_reads input1 gs1 MINUS_STRAND_SHIFT PLUS_STRAND_SHIFT =
      shift_reads input2 gs2 MINUS_STRAND_SHIFT PLUS_STRAND_SHIFT := by
  rw [h1, h2]

/-- Witness for C8 at a concrete one-record input: both runs agree and the
common value is the shifted record. -/
theorem C8_witness :
    shift_reads ["chr1\t10\t20\tname\t0\t-"] [("chr1", 100)] MINUS_STRAND_SHIFT PLUS_STRAND_SHIFT =
      shift_reads ["chr1\t10\t20\tname\t0\t-"] [("chr1", 100)] MINUS_STRAND_SHIFT PLUS_STRAND_SHIFT ∧
    shift_reads ["chr1\t10\t20\tname\t0\t-"] [("chr1", 100)] MINUS_STRAND_SHIFT PLUS_STRAND_SHIFT =
      .ok (["chr1\t5\t15\tname\t0\t-"], []) :=
  ⟨C8_shift_reads_deterministic _ _ _ _ rfl rfl, by decide⟩

/-- C2: for a record whose chromosome has length `size` in the genome-size
table, an output line is only emitted when both shifted coordinates lie in
`[1, size]`; when either bound fails, the record is logged together with
the offending original line and dropped without an error.  At the concrete
input `chr1 96 99 name 0 +` with table `{chr1: 100}`, the shifted end
`103 > 100` and the record is dropped. -/
theorem C2_shift_boundary_validation (genome_sizes : List (String × Int))
    (line chrom : String) (start stop : Int) (strand : String)
    (size new_start new_end : Int)
    (hp : parse_record line = .ok (chrom, start, stop, strand))
    (hc : shifted_coords strand start stop MINUS_STRAND_SHIFT PLUS_STRAND_SHIFT =
      some (new_start, new_end))
    (hg : pyLookup genome_sizes chrom = some size) :
    (∀ log_lines out,
      shift_line genome_sizes MINUS_STRAND_SHIFT PLUS_STRAND_SHIFT line =
        .ok (log_lines, some out) →
      1 ≤ new_start ∧ new_start ≤ size ∧ 1 ≤ new_end ∧ new_end ≤ size) ∧
    (¬(1 ≤ new_start ∧ new_start ≤ size ∧ 1 ≤ new_end ∧ new_end ≤ size) →
      ∃ msg, shift_line genome_sizes MINUS_STRAND_SHIFT PLUS_STRAND_SHIFT line =
        .ok ([msg, py_strip line], none)) ∧
    shift_line [("chr1", 100)] MINUS_STRAND_SHIFT PLUS_STRAND_SHIFT "chr1\t96\t99\tname\t0\t+" =
      .ok (["Shift end site beyond chromosome boundry:", "chr1\t96\t99\tname\t0\t+"], none) := by
  refine ⟨?_, ?_, by decide⟩
  · intro log_lines out hres
    simp only [shift_line, hp, hc, within_genome_boundry, hg] at hres
    split_ifs at hres <;> simp_all
  · intro hbad
    simp only [shift_line, hp, hc, within_genome_boundry, hg]
    split_ifs <;> first
      | exact ⟨"Shift start site beyond chromosome boundry:", rfl⟩
      | exact ⟨"Shift end site beyond chromosome boundry:", rfl⟩
      | omega

/-- Witness for C2 at the concrete record `chr1 96 99 name 0 +` with table
`{chr1: 100}`: the shifted end `103` exceeds `100`, so the record is logged
and dropped. -/
theorem C2_witness :
    ∃ msg, shift_line [("chr1", 100)] MINUS_STRAND_SHIFT PLUS_STRAND_SHIFT
      "chr1\t96\t99\tname\t0\t+" = .ok ([msg, "chr1\t96\t99\tname\t0\t+"], none) := by
  have h := (C2_shift_boundary_validation [("chr1", 100)] "chr1\t96\t99\tname\t0\t+"
    "chr1" 96 99 "+" 100 100 103 (by decide) (by decide) (by decide)).2.1 (by decide)
  rwa [show py_strip "chr1\t96\t99\tname\t0\t+" = "chr1\t96\t99\tname\t0\t+" from by decide] at h

/-- C9 counterexample: the record `chrZ 2 10 name 0 -` has a chromosome
absent from the table `{chr1: 100}`, yet `shift_reads` does not raise a
`KeyError` on it: the shifted start `-3 < 1` makes `within_genome_boundry`
return `False` before the genome-size dict is consulted, so the record is
logged and dropped. -/
theorem C9_counterexample :
    pyLookup [("chr1", 100)] "chrZ" = none ∧
    shift_line [("chr1", 100)] MINUS_STRAND_SHIFT PLUS_STRAND_SHIFT "chrZ\t2\t10\tname\t0\t-" =
      .ok (["Shift start site beyond chromosome boundry:", "chrZ\t2\t10\tname\t0\t-"], none) := by
  decide

/-- C9 (amended): a record with strand `+` or `-` whose chromosome is absent
from the genome-size table raises an uncaught `KeyError` during boundary
checking whenever its shifted start is at least 1; conversely, when the
chromosome is present in the table no exception is raised at all, so
totality of the boundary check requires every consulted chromosome to
appear in the table. -/
theorem C9_absent_chrom_keyerror (genome_sizes : List (String × Int))
    (line chrom : String) (start stop : Int) (strand : String)
    (new_start new_end : Int)
    (hp : parse_record line = .ok (chrom, start, stop, strand))
    (hc : shifted_coords strand start stop MINUS_STRAND_SHIFT PLUS_STRAND_SHIFT =
      some (new_start, new_end)) :
    (pyLookup genome_sizes chrom = none → 1 ≤ new_start →
      shift_line genome_sizes MINUS_STRAND_SHIFT PLUS_STRAND_SHIFT line =
        .error (.keyError chrom)) ∧
    (∀ size, pyLookup genome_sizes chrom = some size →
      ∃ r, shift_line genome_sizes MINUS_STRAND_SHIFT PLUS_STRAND_SHIFT line = .ok r) := by
  constructor
  · intro hg hs
    simp only [shift_line, hp, hc, within_genome_boundry, hg]
    split_ifs <;> first | omega | rfl
  · intro size hg
    simp only [shift_line, hp, hc, within_genome_boundry, hg]
    split_ifs <;> exact ⟨_, rfl⟩

/-- Witness for C9 at the concrete record `chrZ 10 20 name 0 +` with table
`{chr1: 100}`: the chromosome is absent and the shifted start is `14 ≥ 1`,
so the shifter raises `KeyError('chrZ')`. -/
theorem C9_witness :
    shift_line [("chr1", 100)] MINUS_STRAND_SHIFT PLUS_STRAND_SHIFT "chrZ\t10\t20\tname\t0\t+" =
      .error (.keyError "chrZ") :=
  (C9_absent_chrom_keyerror [("chr1", 100)] "chrZ\t10\t20\tname\t0\t+" "chrZ" 10 20 "+" 14 24
    (by decide) (by decide)).1 (by decide) (by decide)

/-- C5: the stage runner executes exactly the stages `n` in 1..6 with
`step ≤ n`, in ascending order; with `step = 5` only stages 5 and 6 run,
the run writes exactly the stage-5 and stage-6 outputs — in particular
`<lib>.processed.bed` — reads the pre-existing `<lib>.chrmrm.bam`, and
touches no stage-1..4 output path. -/
theorem C5_stage_gating :
    (∀ step n : Int, n ∈ stages_run step ↔ n ∈ stage_numbers ∧ step ≤ n) ∧
    (∀ step : Int, (stages_run step).Sorted (· < ·)) ∧
    stages_run 5 = [5, 6] ∧
    pipeline_writes 5 "lib" [("r1", "r2")] = stage5_writes "lib" ++ stage6_writes "lib" ∧
    processed_bed "lib" ∈ stage5_writes "lib" ∧
    chrmrm_bam "lib" ∈ stage5_reads "lib" ∧
    (∀ p ∈ stage1_writes "lib" 1 ++
        stage2_writes (reads_after_stage1 1 "lib" [("r1", "r2")]) ++
        stage3_writes "lib" 1 ++ stage4_writes "lib" 1,
      p ∉ pipeline_writes 5 "lib" [("r1", "r2")]) := by
  refine ⟨?_, ?_, by decide, by decide, by decide, by decide, by decide⟩
  · intro step n
    simp [stages_run, List.mem_filter]
  · intro step
    exact List.Pairwise.sublist (List.filter_sublist _) (by decide)

/-- Witness for C5: stage 3 is not executed when the run starts at step 5,
and the stage-4 output `lib.chrmrm.bam` is not written by that run. -/
theorem C5_witness :
    (3 : Int) ∉ stages_run 5 ∧
    chrmrm_bam "lib" ∉ pipeline_writes 5 "lib" [("r1", "r2")] := by
  constructor
  · intro h
    have := (C5_stage_gating.1 5 3).mp h
    omega
  · exact C5_stage_gating.2.2.2.2.2.2 (chrmrm_bam "lib") (by decide)

/-- C6 counterexample: the staging-delete list at the end of stage 4 does
contain the chrM-removed container `lib.chrmrm.bam` (it is the final entry
appended by the stage-4 `staging_delete.extend`). -/
theorem C6_counterexample :
    chrmrm_bam "lib" ∈ staging_delete_after_stage4 1 "tmp" "lib" [("r1", "r2")] := by
  decide

/-- C6 (amended): at the end of stage 4, the staging-delete list contains
the sorted-merged, steric-filtered, unique, duplicate-removed and
unmapped-removed containers, and also the final chrM-removed container
`<lib>.chrmrm.bam`; the latter still serves as input to stage 5 because the
staged deletions are performed only once, after all stages complete. -/
theorem C6_stage4_staging_contents (step : Int) (tmp_dir lib : String)
    (read_pairs : List (String × String)) (h : step ≤ 4) :
    sortmerged_bam lib ∈ staging_delete_after_stage4 step tmp_dir lib read_pairs ∧
    steric_filter_bam lib ∈ staging_delete_after_stage4 step tmp_dir lib read_pairs ∧
    unique_bam lib ∈ staging_delete_after_stage4 step tmp_dir lib read_pairs ∧
    duprm_bam lib ∈ staging_delete_after_stage4 step tmp_dir lib read_pairs ∧
    unmappedrm_bam lib ∈ staging_delete_after_stage4 step tmp_dir lib read_pairs ∧
    chrmrm_bam lib ∈ staging_delete_after_stage4 step tmp_dir lib read_pairs ∧
    chrmrm_bam lib ∈ stage5_reads lib := by
  simp [staging_delete_after_stage4, stage4_staging, stage5_reads, h]

/-- Witness for C6 at step 5 started from stage 1: all six stage-4
containers, including the chrM-removed one, are in the staging-delete
list. -/
theorem C6_witness :
    duprm_bam "lib" ∈ staging_delete_after_stage4 1 "tmp" "lib" [("r1", "r2")] ∧
    chrmrm_bam "lib" ∈ staging_delete_after_stage4 1 "tmp" "lib" [("r1", "r2")] :=
  ⟨(C6_stage4_staging_contents 1 "tmp" "lib" [("r1", "r2")] (by decide)).2.2.2.1,
   (C6_stage4_staging_contents 1 "tmp" "lib" [("r1", "r2")] (by decide)).2.2.2.2.2.1⟩

/-- Helper: a successful parse means field 5 of the split record is the
strand value. -/
theorem parse_record_strand_field (line chrom : String) (start stop : Int)
    (strand : String) (hp : parse_record line = .ok (chrom, start, stop, strand)) :
    pyGetItem (strip_split_tab line) 5 = .ok strand := by
  simp only [parse_record] at hp
  repeat' split at hp
  all_goals simp_all

/-- C10: a line with fewer than 6 tab-separated fields raises `IndexError`,
a line whose start field is not an integer literal raises `ValueError`, and
the malformed-record log-and-skip path is reached only for lines that parse
into at least 6 fields with integer coordinates but whose strand value is
neither `+` nor `-`. -/
theorem C10_parse_failures :
    shift_line [("chr1", 100)] MINUS_STRAND_SHIFT PLUS_STRAND_SHIFT "chr1\t10\t20" =
      .error .indexError ∧
    shift_line [("chr1", 100)] MINUS_STRAND_SHIFT PLUS_STRAND_SHIFT "chr1\tabc\t20\tname\t0\t+" =
      .error .valueError ∧
    (∀ (genome_sizes : List (String × Int)) (minus_strand_shift plus_strand_shift : Int)
        (line : String) (out : Option String),
      shift_line genome_sizes minus_strand_shift plus_strand_shift line =
        .ok (["Mal-formatted line in file, skipping:", py_strip line], out) →
      ∃ chrom start stop strand,
        parse_record line = .ok (chrom, start, stop, strand) ∧
        strand ≠ "+" ∧ strand ≠ "-" ∧ 6 ≤ (strip_split_tab line).length) := by
  refine ⟨by decide, by decide, ?_⟩
  intro gs mS pS line out hres
  cases hp : parse_record line with
  | error e =>
    rw [shift_line, hp] at hres
    exact Except.noConfusion hres
  | ok quad =>
    obtain ⟨chrom, start, stop, strand⟩ := quad
    simp only [shift_line, hp] at hres
    cases hc : shifted_coords strand start stop mS pS with
    | none =>
      have hstrand : strand ≠ "+" ∧ strand ≠ "-" := by
        unfold shifted_coords at hc
        split_ifs at hc with h1 h2
        · exact ⟨h1, h2⟩
      have hlen : 6 ≤ (strip_split_tab line).length := by
        have := pyGetItem_ok_length (strip_split_tab line) 5 strand
          (parse_record_strand_field line chrom start stop strand hp)
        omega
      exact ⟨chrom, start, stop, strand, rfl, hstrand.1, hstrand.2, hlen⟩
    | some pair =>
      obtain ⟨new_start, new_end⟩ := pair
      simp only [hc] at hres
      cases hb1 : within_genome_boundry chrom new_start gs with
      | error e =>
        simp only [hb1] at hres
        exact Except.noConfusion hres
      | ok b1 =>
        cases b1 with
        | false =>
          simp only [hb1, Except.ok.injEq, Prod.mk.injEq, List.cons.injEq] at hres
          exact absurd hres.1.1 (by decide)
        | true =>
          simp only [hb1] at hres
          cases hb2 : within_genome_boundry chrom new_end gs with
          | error e =>
            simp only [hb2] at hres
            exact Except.noConfusion hres
          | ok b2 =>
            cases b2 with
            | false =>
              simp only [hb2, Except.ok.injEq, Prod.mk.injEq, List.cons.injEq] at hres
              exact absurd hres.1.1 (by decide)
            | true =>
              simp only [hb2, Except.ok.injEq, Prod.mk.injEq] at hres
              exact absurd hres.1 (by simp)

/-- Witness for C10 at the concrete line `chr1 10 20 name 0 *`: the
log-and-skip path is taken and the line indeed parses into 6 fields with
integer coordinates and a strand that is neither `+` nor `-`. -/
theorem C10_witness :
    ∃ chrom start stop strand,
      parse_record "chr1\t10\t20\tname\t0\t*" = .ok (chrom, start, stop, strand) ∧
      strand ≠ "+" ∧ strand ≠ "-" ∧
      6 ≤ (strip_split_tab "chr1\t10\t20\tname\t0\t*").length := by
  have h := C10_parse_failures.2.2 [("chr1", 100)] MINUS_STRAND_SHIFT PLUS_STRAND_SHIFT
    "chr1\t10\t20\tname\t0\t*" none ?_
  · exact h
  · rw [show py_strip "chr1\t10\t20\tname\t0\t*" = "chr1\t10\t20\tname\t0\t*" from by decide]
    decide

/-- Helper: on a nonempty line, one scraping iteration replaces the
accumulator with the row's matching value, if any. -/
theorem scrape_line_eq_row_value (acc line : String) (h : line ≠ "") :
    scrape_percent_duplicates_line acc line = .ok ((row_scrape_value line).getD acc) := by
  cases hl : line.toList with
  | nil =>
    exfalso
    apply h
    cases line with
    | mk data =>
      cases data with
      | nil => rfl
      | cons c cs => exact List.noConfusion hl
  | cons c cs =>
    simp only [scrape_percent_duplicates_line, row_scrape_value, hl]
    split_ifs <;> simp

/-- Helper: the scraping loop over nonempty lines computes the matching
value of the last matching row, defaulting to the starting accumulator. -/
theorem scrape_lines_last_match (lines : List String) :
    ∀ acc : String, (∀ l ∈ lines, l ≠ "") →
    scrape_percent_duplicates_lines lines acc =
      .ok (((lines.filterMap row_scrape_value).getLast?).getD acc) := by
  induction lines with
  | nil => intro acc _; rfl
  | cons l ls ih =>
    intro acc h
    have hl : l ≠ "" := h l (by simp)
    have hstep : scrape_percent_duplicates_lines (l :: ls) acc =
        scrape_percent_duplicates_lines ls ((row_scrape_value l).getD acc) := by
      rw [scrape_percent_duplicates_lines, scrape_line_eq_row_value acc l hl]
    rw [hstep, ih ((row_scrape_value l).getD acc) (fun x hx => h x (by simp [hx]))]
    congr 1
    cases hr : row_scrape_value l with
    | none => simp [List.filterMap_cons, hr]
    | some v =>
      simp only [List.filterMap_cons, hr, Option.getD_some]
      cases hfm : ls.filterMap row_scrape_value with
      | nil => simp
      | cons x xs =>
        rw [List.getLast?_cons_cons]
        cases hgl : (x :: xs).getLast? with
        | none => exact absurd hgl (by simp)
        | some y => simp [hgl]

/-- C7 counterexample: with two data rows both having exactly 9 fields and
a numeric 8th field, the recorded duplicate-rate value is the 8th field of
the second (last) row, `22`, not the 8th field `11` of the first row. -/
theorem C7_counterexample :
    percent_duplicate_reads
      (some ["a\tb\tc\td\te\tf\tg\t11\ti", "a\tb\tc\td\te\tf\tg\t22\ti"]) = "22" ∧
    row_scrape_value "a\tb\tc\td\te\tf\tg\t11\ti" = some "11" ∧
    ("22" : String) ≠ "11" := by decide

/-- C7 (amended): the recorded duplicate-rate value is the 8th field
(index 7) of the last non-comment row with exactly 9 tab-separated fields
whose 8th field matches the numeric pattern (keeping the initial value `0`
when no row matches), and on any failure to open the report a placeholder
string is recorded instead of an exception propagating. -/
theorem C7_percent_duplicates_last_match (lines : List String)
    (h : ∀ l ∈ lines, l ≠ "") :
    percent_duplicate_reads (some lines) =
      (((lines.filterMap row_scrape_value).getLast?).getD "0") ∧
    percent_duplicate_reads none = COULD_NOT_OPEN_MARKDUP := by
  refine ⟨?_, rfl⟩
  show (match scrape_percent_duplicates_lines lines "0" with
        | .ok v => v
        | .error _ => COULD_NOT_OPEN_MARKDUP) = _
  rw [scrape_lines_last_match lines "0" h]

/-- Witness for C7 on a concrete metrics file with a comment row and one
matching data row: the recorded value is that row's 8th field. -/
theorem C7_witness :
    percent_duplicate_reads (some ["# comment", "L\t1\t2\t3\t4\t5\t6\t0.082\t9"]) = "0.082" := by
  have h := (C7_percent_duplicates_last_match ["# comment", "L\t1\t2\t3\t4\t5\t6\t0.082\t9"]
    (by decide)).1
  rw [h]
  decide

